import Mathlib

/-!
Shallow embedding of the lazypueue session controller (src/app.rs, src/events.rs,
src/main.rs, src/ui/input.rs, src/pueue_client.rs) together with theorems settling
the specification claims about it.

Conventions of the embedding:
* `BTreeMap` fields of the remote snapshot are association lists; the map
  invariant (no duplicate keys) is carried as an explicit hypothesis where a
  claim needs it.
* Rust `String` values are Lean `String`s; byte indices into their UTF-8
  encoding are tracked explicitly (`charUtf8Len`, `charPosOfByte`), so that an
  operation that would panic in Rust (indexing a string at a non-character
  boundary) is represented by `Option.none`.
* The remote daemon is an oracle (`ClientBehavior`): one field per client
  method, each returning `Except String` as the corresponding Rust method
  returns `anyhow::Result`.  `App.handle_action` additionally returns the list
  of client calls it issued, in order.
* `usize` saturating arithmetic is modelled on `Nat` with an explicit cap.
-/

namespace LazyPueue

/-- Number of bytes in the UTF-8 encoding of a character
(the length `String::insert` advances a byte cursor by in Rust). -/
def charUtf8Len (c : Char) : Nat :=
  if c.toNat < 0x80 then 1
  else if c.toNat < 0x800 then 2
  else if c.toNat < 0x10000 then 3
  else 4

/-- Total number of bytes in the UTF-8 encoding of a string (Rust `String::len`). -/
def utf8Len (s : List Char) : Nat := (s.map charUtf8Len).sum

/-- The character position corresponding to byte index `n` of the UTF-8 encoding
of `s`, when `n` is a character boundary (Rust `str::is_char_boundary`), and
`none` when `n` falls strictly inside a character's encoding or past the end —
the situations in which Rust's `String::insert` / `String::remove` panic. -/
def charPosOfByte : List Char → Nat → Option Nat
  | _, 0 => some 0
  | [], _ + 1 => none
  | c :: cs, n + 1 =>
    if n + 1 < charUtf8Len c then none
    else (charPosOfByte cs (n + 1 - charUtf8Len c)).map (· + 1)

/-- Text input state for add/edit dialogs (src/ui/input.rs `TextInput`).
`cursor` is a byte index into the UTF-8 encoding of `value`, exactly as the
Rust code uses it with `String::insert`/`String::remove`. -/
structure TextInput where
  value : String
  cursor : Nat
  deriving DecidableEq

namespace TextInput

/-- Rust `TextInput::new` / `Default`. -/
def new : TextInput := ⟨"", 0⟩

/-- Rust `TextInput::with_value`: cursor starts at `value.len()` (bytes). -/
def with_value (v : String) : TextInput := ⟨v, utf8Len v.data⟩

/-- Rust `TextInput::insert`: `value.insert(cursor, c); cursor += 1`.
`none` models the panic of `String::insert` when `cursor` is not a character
boundary.  Note the cursor advances by one regardless of how many bytes the
inserted character occupies. -/
def insert (t : TextInput) (c : Char) : Option TextInput :=
  (charPosOfByte t.value.data t.cursor).map fun p =>
    ⟨String.mk (t.value.data.take p ++ c :: t.value.data.drop p), t.cursor + 1⟩

/-- Rust `TextInput::delete_char`: if `cursor > 0 { cursor -= 1; value.remove(cursor) }`.
`none` models the panic of `String::remove` at a non-boundary or end index. -/
def delete_char (t : TextInput) : Option TextInput :=
  if t.cursor > 0 then
    match charPosOfByte t.value.data (t.cursor - 1) with
    | some p =>
      if p < t.value.data.length then
        some ⟨String.mk (t.value.data.take p ++ t.value.data.drop (p + 1)), t.cursor - 1⟩
      else none
    | none => none
  else some t

/-- Rust `TextInput::delete_forward`: if `cursor < value.len() { value.remove(cursor) }`. -/
def delete_forward (t : TextInput) : Option TextInput :=
  if t.cursor < utf8Len t.value.data then
    match charPosOfByte t.value.data t.cursor with
    | some p =>
      if p < t.value.data.length then
        some ⟨String.mk (t.value.data.take p ++ t.value.data.drop (p + 1)), t.cursor⟩
      else none
    | none => none
  else some t

/-- Rust `TextInput::move_left`. -/
def move_left (t : TextInput) : TextInput :=
  if t.cursor > 0 then { t with cursor := t.cursor - 1 } else t

/-- Rust `TextInput::move_right`: bounded by `value.len()` in bytes. -/
def move_right (t : TextInput) : TextInput :=
  if t.cursor < utf8Len t.value.data then { t with cursor := t.cursor + 1 } else t

/-- Rust `TextInput::move_start`. -/
def move_start (t : TextInput) : TextInput := { t with cursor := 0 }

/-- Rust `TextInput::move_end`. -/
def move_end (t : TextInput) : TextInput := { t with cursor := utf8Len t.value.data }

/-- Rust `TextInput::clear`. -/
def clear (_ : TextInput) : TextInput := ⟨"", 0⟩

end TextInput

/-- Rust `char::is_whitespace` (the Unicode `White_Space` property). -/
def rustIsWhitespace (c : Char) : Bool :=
  c.toNat == 0x20 || (0x09 ≤ c.toNat && c.toNat ≤ 0x0D) || c.toNat == 0x85 ||
  c.toNat == 0xA0 || c.toNat == 0x1680 ||
  (0x2000 ≤ c.toNat && c.toNat ≤ 0x200A) || c.toNat == 0x2028 ||
  c.toNat == 0x2029 || c.toNat == 0x202F || c.toNat == 0x205F || c.toNat == 0x3000

/-- Rust `str::trim`. -/
def rustTrim (s : String) : String :=
  String.mk (((s.data.dropWhile rustIsWhitespace).reverse.dropWhile rustIsWhitespace).reverse)

/-- Rust `usize::MAX`; `log_scroll` uses it both as a saturation bound and as the
"pinned to bottom" sentinel. -/
def usizeMax : Nat := 2 ^ 64 - 1

/-- Rust `usize::saturating_add`. -/
def satAdd (a b : Nat) : Nat := min (a + b) usizeMax

section SanityChecks

example : charUtf8Len 'a' = 1 := by decide
example : charUtf8Len 'é' = 2 := by decide
example : (TextInput.new.insert 'a').map TextInput.value = some "a" := by decide
example : rustTrim "  sleep 5 " = "sleep 5" := by decide
example : rustTrim "   " = "" := by decide

end SanityChecks

/-- Variant tag of `pueue_lib::task::TaskStatus`; the controller only ever
matches on the variant, never on the payloads. -/
inductive TaskStatus where
  | Queued
  | Stashed
  | Running
  | Paused
  | Done
  | Locked
  deriving DecidableEq

/-- The fields of `pueue_lib::task::Task` the controller reads. -/
structure Task where
  command : String
  path : String
  envs : List (String × String)
  group : String
  priority : Int
  label : Option String
  status : TaskStatus
  deriving DecidableEq

/-- Variant tag of `pueue_lib::state::GroupStatus`. -/
inductive GroupStatus where
  | Running
  | Paused
  | Reset
  deriving DecidableEq

/-- The fields of `pueue_lib::state::Group` the controller reads. -/
structure Group where
  status : GroupStatus
  parallel_tasks : Nat
  deriving DecidableEq

/-- Rust `pueue_lib::state::State`: the remote snapshot.  The two `BTreeMap`s are
association lists; key uniqueness is assumed as a hypothesis where needed. -/
structure State where
  tasks : List (Nat × Task)
  groups : List (String × Group)
  deriving DecidableEq

/-- Rust `EditableTask` (fields the controller reads/writes). -/
structure EditableTask where
  id : Nat
  original_command : String
  deriving DecidableEq

/-- Rust `InputMode` (src/app.rs). -/
inductive InputMode where
  | AddTask
  | EditTask (t : EditableTask)
  deriving DecidableEq

/-- Rust `TreeSelection` (src/app.rs): either a group header or a task is focused. -/
inductive TreeSelection where
  | Group (name : String)
  | Task (group : String) (id : Nat)
  deriving DecidableEq

/-- Rust `TreeItem` (src/app.rs): one row of the flattened tree view. -/
inductive TreeItem where
  | Group (name : String)
  | Task (group : String) (id : Nat)
  deriving DecidableEq

/-- Rust `RestartOptions` (the argument `App::handle_action` builds for
`client.restart`). -/
structure RestartOptions where
  command : String
  path : String
  envs : List (String × String)
  group : String
  priority : Option Int
  label : Option String
  deriving DecidableEq

/-- The `App` struct (src/app.rs), minus the two fields that are not part of
the controller state proper: `last_update` (a wall-clock `Instant`) carries no
program-visible information beyond the render layer. -/
structure App where
  state : Option State
  show_log_modal : Bool
  log_content : Option String
  log_scroll : Nat
  follow_mode : Bool
  error_message : Option String
  input_mode : Option InputMode
  text_input : TextInput
  confirm_delete : Option Nat
  selection : TreeSelection
  collapsed_groups : List String
  deriving DecidableEq

/-- Rust `App::default`. -/
def App.default : App where
  state := none
  show_log_modal := false
  log_content := none
  log_scroll := 0
  follow_mode := false
  error_message := none
  input_mode := none
  text_input := TextInput.new
  confirm_delete := none
  selection := .Group "default"
  collapsed_groups := []

/-- Byte-lexicographic order on Rust strings; on UTF-8 this coincides with
code-point lexicographic order, i.e. the order of the underlying `List Char`. -/
def strLe (a b : String) : Prop := a.data ≤ b.data

instance : DecidableRel strLe := fun a b => inferInstanceAs (Decidable (a.data ≤ b.data))

instance : IsTotal String strLe :=
  ⟨fun a b => IsTotal.total (r := ((· ≤ ·) : List Char → List Char → Prop)) a.data b.data⟩

instance : IsTrans String strLe :=
  ⟨fun _ _ _ hab hbc =>
    Trans.trans (α := List Char) (r := (· ≤ ·)) (s := (· ≤ ·)) hab hbc⟩

namespace App

/-- Rust `App::get_selected_task_id`. -/
def get_selected_task_id (a : App) : Option Nat :=
  match a.selection with
  | .Task _ task_id => some task_id
  | .Group _ => none

/-- Rust `App::get_selected_group`. -/
def get_selected_group (a : App) : String :=
  match a.selection with
  | .Group name => name
  | .Task group _ => group

/-- Rust `App::get_group_list`: group names sorted alphabetically (`Vec::sort`),
then "default" relocated to the front when present (`position`/`remove`/`insert(0)`). -/
def get_group_list (a : App) : List String :=
  match a.state with
  | some s =>
    let groups := List.insertionSort strLe (s.groups.map Prod.fst)
    if groups.contains "default" then "default" :: groups.erase "default" else groups
  | none => []

/-- The sorted ids of the tasks belonging to group `g` (the
`filter`/`map`/`sort` sequence that appears in `get_tree_items`,
`ExpandGroup` and `validate_selection`'s projection). -/
def tasksInGroup (s : State) (g : String) : List Nat :=
  List.insertionSort (· ≤ ·) ((s.tasks.filter (fun p => p.2.group == g)).map Prod.fst)

/-- The run of tree items one loop iteration of `get_tree_items` pushes for
group `g`: the header, then — unless `g` is collapsed — its task rows. -/
def treeBlock (collapsed : List String) (s : State) (g : String) : List TreeItem :=
  TreeItem.Group g ::
    (if g ∈ collapsed then [] else (tasksInGroup s g).map (TreeItem.Task g))

/-- Rust `App::get_tree_items`: the flattened tree of visible items. -/
def get_tree_items (a : App) : List TreeItem :=
  let groups := a.get_group_list
  match a.state with
  | some s => groups.flatMap (treeBlock a.collapsed_groups s)
  | none => []

/-- The `match` used by `get_selection_position` and `validate_selection` to
test whether a tree item is the one currently selected. -/
def selectionMatches (sel : TreeSelection) : TreeItem → Bool
  | .Group b => match sel with | .Group a => a == b | _ => false
  | .Task g2 t2 => match sel with | .Task g1 t1 => g1 == g2 && t1 == t2 | _ => false

/-- Rust `App::get_selection_position`. -/
def get_selection_position (a : App) (items : List TreeItem) : Option Nat :=
  items.findIdx? (selectionMatches a.selection)

/-- The selection designating a given tree item (`App::select_tree_item`). -/
def selectionOfItem : TreeItem → TreeSelection
  | .Group name => .Group name
  | .Task group task_id => .Task group task_id

/-- Rust `App::validate_selection`: reset the selection when it no longer occurs in
the projected tree. -/
def validate_selection (a : App) : App :=
  let tree_items := a.get_tree_items
  match tree_items with
  | [] => { a with selection := .Group "default" }
  | first :: _ =>
    if tree_items.any (selectionMatches a.selection) then a
    else { a with selection := selectionOfItem first }

/-- Rust `App::get_task_list`: all tasks sorted by id. -/
def get_task_list (a : App) : List (Nat × Task) :=
  match a.state with
  | some s => List.insertionSort (fun x y => x.1 ≤ y.1) s.tasks
  | none => []

end App

/-- The `Action` enum (src/app.rs): the closed set of intents. -/
inductive Action where
  | NavigateUp
  | NavigateDown
  | NavigateTop
  | NavigateBottom
  | KillTask
  | TogglePause
  | ToggleTaskPause
  | Refresh
  | ViewLogs
  | CloseLogs
  | RestartTask
  | CleanFinished
  | FollowLogs
  | ScrollLogUp
  | ScrollLogDown
  | ScrollLogPageUp
  | ScrollLogPageDown
  | StartAddTask
  | StartEditTask
  | RemoveTask
  | SubmitInput
  | CancelInput
  | InputChar (c : Char)
  | InputBackspace
  | InputDelete
  | InputLeft
  | InputRight
  | InputHome
  | InputEnd
  | StashTask
  | EnqueueTask
  | SwitchUp
  | SwitchDown
  | IncreaseParallel
  | DecreaseParallel
  | CollapseGroup
  | ExpandGroup
  | ConfirmAction
  | CancelConfirm
  | Quit
  deriving DecidableEq

/-- One client call issued by the controller, with the arguments the
controller passes (src/app.rs call sites).  Used to record the trace of
remote calls an action performs. -/
inductive ClientCall where
  | get_state
  | kill (ids : List Nat)
  | start_group (g : String)
  | pause_group (g : String)
  | get_log (id : Nat)
  | restart (opts : RestartOptions)
  | clean (successful_only : Bool) (group : Option String)
  | add (command : String) (group : String)
  | remove (ids : List Nat)
  | pause_tasks (ids : List Nat)
  | start_tasks (ids : List Nat)
  | edit_request (id : Nat)
  | edit_restore (id : Nat)
  | edit_submit (t : EditableTask)
  | stash (ids : List Nat)
  | enqueue (ids : List Nat)
  | switch (id1 id2 : Nat)
  | parallel (g : String) (limit : Nat)
  deriving DecidableEq

/-- The daemon as an oracle: one field per `PueueClient` method used by the
controller, each returning `Except String` as the Rust method returns
`anyhow::Result` (the `String` is the rendered error).  `start_group` and
`pause_group` are called by src/app.rs but their bodies are not part of the
sources; as oracle fields they need no body. -/
structure ClientBehavior where
  get_state : Except String State
  kill : List Nat → Except String Unit
  start_group : String → Except String Unit
  pause_group : String → Except String Unit
  get_log : Nat → Except String String
  restart : RestartOptions → Except String Unit
  clean : Bool → Option String → Except String Unit
  add : String → String → Except String Nat
  remove : List Nat → Except String Unit
  pause_tasks : List Nat → Except String Unit
  start_tasks : List Nat → Except String Unit
  edit_request : Nat → Except String EditableTask
  edit_restore : Nat → Except String Unit
  edit_submit : EditableTask → Except String Unit
  stash : List Nat → Except String Unit
  enqueue : List Nat → Except String Unit
  switch : Nat → Nat → Except String Unit
  parallel : String → Nat → Except String Unit

/-- Result of one `App::handle_action` invocation.
* `panicked`: a Rust panic (out-of-boundary string index in `TextInput`);
* `failed`: the function returned `Err` — in src/app.rs this happens exactly
  where a client call is made with `?`;
* `ok quit a calls`: the function returned `Ok(quit)` leaving the app in
  state `a`, having issued `calls` in order. -/
inductive StepResult where
  | panicked
  | failed (msg : String) (a : App) (calls : List ClientCall)
  | ok (quit : Bool) (a : App) (calls : List ClientCall)
  deriving DecidableEq

/-- The client calls a step issued (also issued when the step ended in `Err`). -/
def StepResult.calls : StepResult → List ClientCall
  | .panicked => []
  | .failed _ _ cs => cs
  | .ok _ _ cs => cs

/-- The app state a step left behind, when it did not panic. -/
def StepResult.appAfter : StepResult → Option App
  | .panicked => none
  | .failed _ a _ => some a
  | .ok _ a _ => some a

namespace App

/-- Rust `App::refresh` (src/app.rs): fetch the snapshot; on success replace the
cache, clear the error banner and validate the selection; on failure set the
error banner and keep everything else.  Always returns `Ok(())` in Rust, so it
never contributes a `failed` step. -/
def refresh (c : ClientBehavior) (a : App) : App × List ClientCall :=
  match c.get_state with
  | .ok s =>
    (App.validate_selection { a with state := some s, error_message := none },
      [.get_state])
  | .error e =>
    ({ a with error_message := some ("Failed to connect to pueue daemon: " ++ e) },
      [.get_state])

end App

/-- The `can_switch` closure of the SwitchUp/SwitchDown arms. -/
def canSwitch (s : TaskStatus) : Bool :=
  match s with
  | .Queued => true
  | .Stashed => true
  | _ => false

namespace App

/-- Rust `App::handle_action` (src/app.rs): dispatch one intent.  Mirrors the Rust
arm for arm; remote calls consult the oracle `c` and are recorded in order. -/
def handle_action (c : ClientBehavior) (action : Action) (a : App) : StepResult :=
  match action with
  | .NavigateUp =>
    let tree_items := a.get_tree_items
    match a.get_selection_position tree_items with
    | some current_pos =>
      if current_pos > 0 then
        match tree_items[current_pos - 1]? with
        | some it => .ok false { a with selection := selectionOfItem it } []
        | none => .panicked
      else .ok false a []
    | none => .ok false a []
  | .NavigateDown =>
    let tree_items := a.get_tree_items
    match a.get_selection_position tree_items with
    | some current_pos =>
      if current_pos + 1 < tree_items.length then
        match tree_items[current_pos + 1]? with
        | some it => .ok false { a with selection := selectionOfItem it } []
        | none => .panicked
      else .ok false a []
    | none => .ok false a []
  | .NavigateTop =>
    match a.get_tree_items.head? with
    | some first => .ok false { a with selection := selectionOfItem first } []
    | none => .ok false a []
  | .NavigateBottom =>
    match a.get_tree_items.getLast? with
    | some last => .ok false { a with selection := selectionOfItem last } []
    | none => .ok false a []
  | .KillTask =>
    match a.get_selected_task_id with
    | some task_id =>
      match c.kill [task_id] with
      | .error e => .failed e a [.kill [task_id]]
      | .ok _ =>
        let (a2, calls) := a.refresh c
        .ok false a2 (.kill [task_id] :: calls)
    | none => .ok false a []
  | .TogglePause =>
    let group_name :=
      match a.selection with
      | .Group name => name
      | .Task group _ => group
    match a.state with
    | some st =>
      match st.groups.lookup group_name with
      | some group =>
        match group.status with
        | .Paused =>
          match c.start_group group_name with
          | .error e => .failed e a [.start_group group_name]
          | .ok _ =>
            let (a2, calls) := a.refresh c
            .ok false a2 (.start_group group_name :: calls)
        | _ =>
          match c.pause_group group_name with
          | .error e => .failed e a [.pause_group group_name]
          | .ok _ =>
            let (a2, calls) := a.refresh c
            .ok false a2 (.pause_group group_name :: calls)
      | none =>
        let (a2, calls) := a.refresh c
        .ok false a2 calls
    | none => .ok false a []
  | .Refresh =>
    let (a2, calls) := a.refresh c
    .ok false a2 calls
  | .ViewLogs =>
    if !a.show_log_modal then
      match a.get_selected_task_id with
      | some task_id =>
        match c.get_log task_id with
        | .ok content =>
          .ok false
            { a with log_content := some content, log_scroll := 0, show_log_modal := true }
            [.get_log task_id]
        | .error e =>
          .ok false { a with error_message := some ("Failed to get logs: " ++ e) }
            [.get_log task_id]
      | none => .ok false a []
    else
      .ok false { a with show_log_modal := false, log_content := none, follow_mode := false } []
  | .CloseLogs =>
    .ok false
      { a with show_log_modal := false, log_content := none, log_scroll := 0,
               follow_mode := false } []
  | .ScrollLogUp =>
    if a.log_scroll > 0 then .ok false { a with log_scroll := a.log_scroll - 1 } []
    else .ok false a []
  | .ScrollLogDown =>
    .ok false { a with log_scroll := satAdd a.log_scroll 1 } []
  | .ScrollLogPageUp =>
    .ok false { a with log_scroll := a.log_scroll - 20 } []
  | .ScrollLogPageDown =>
    .ok false { a with log_scroll := satAdd a.log_scroll 20 } []
  | .RestartTask =>
    match a.get_selected_task_id with
    | some task_id =>
      match a.state with
      | some st =>
        match st.tasks.lookup task_id with
        | some task =>
          let opts : RestartOptions :=
            { command := task.command, path := task.path, envs := task.envs,
              group := task.group, priority := some task.priority, label := task.label }
          match c.restart opts with
          | .error e =>
            .ok false { a with error_message := some ("Failed to restart task: " ++ e) }
              [.restart opts]
          | .ok _ =>
            let (a2, calls) := a.refresh c
            .ok false a2 (.restart opts :: calls)
        | none => .ok false a []
      | none => .ok false a []
    | none => .ok false a []
  | .CleanFinished =>
    let group_name : Option String :=
      match a.selection with
      | .Group name => some name
      | .Task group _ => some group
    match c.clean false group_name with
    | .error e =>
      .ok false { a with error_message := some ("Failed to clean tasks: " ++ e) }
        [.clean false group_name]
    | .ok _ =>
      let (a2, calls) := a.refresh c
      .ok false a2 (.clean false group_name :: calls)
  | .FollowLogs =>
    match a.get_selected_task_id with
    | some task_id =>
      if a.show_log_modal then
        .ok false { a with follow_mode := !a.follow_mode } []
      else
        match c.get_log task_id with
        | .ok content =>
          .ok false
            { a with log_content := some content, log_scroll := usizeMax,
                     show_log_modal := true, follow_mode := true }
            [.get_log task_id]
        | .error e =>
          .ok false { a with error_message := some ("Failed to get logs: " ++ e) }
            [.get_log task_id]
    | none => .ok false a []
  | .ToggleTaskPause =>
    match a.get_selected_task_id with
    | some task_id =>
      match a.state with
      | some st =>
        match st.tasks.lookup task_id with
        | some task =>
          let step : App × List ClientCall :=
            match task.status with
            | .Paused =>
              match c.start_tasks [task_id] with
              | .error e =>
                ({ a with error_message := some ("Failed to resume task: " ++ e) },
                  [.start_tasks [task_id]])
              | .ok _ => (a, [.start_tasks [task_id]])
            | .Running =>
              match c.pause_tasks [task_id] with
              | .error e =>
                ({ a with error_message := some ("Failed to pause task: " ++ e) },
                  [.pause_tasks [task_id]])
              | .ok _ => (a, [.pause_tasks [task_id]])
            | .Queued =>
              match c.start_tasks [task_id] with
              | .error e =>
                ({ a with error_message := some ("Failed to start task: " ++ e) },
                  [.start_tasks [task_id]])
              | .ok _ => (a, [.start_tasks [task_id]])
            | .Stashed =>
              match c.start_tasks [task_id] with
              | .error e =>
                ({ a with error_message := some ("Failed to start task: " ++ e) },
                  [.start_tasks [task_id]])
              | .ok _ => (a, [.start_tasks [task_id]])
            | _ => (a, [])
          let (a2, calls) := step.1.refresh c
          .ok false a2 (step.2 ++ calls)
        | none => .ok false a []
      | none => .ok false a []
    | none => .ok false a []
  | .StartAddTask =>
    .ok false { a with text_input := a.text_input.clear, input_mode := some .AddTask } []
  | .StartEditTask =>
    match a.get_selected_task_id with
    | some task_id =>
      match c.edit_request task_id with
      | .ok editable =>
        .ok false
          { a with text_input := TextInput.with_value editable.original_command,
                   input_mode := some (.EditTask editable) }
          [.edit_request task_id]
      | .error e =>
        .ok false { a with error_message := some ("Failed to edit task: " ++ e) }
          [.edit_request task_id]
    | none => .ok false a []
  | .RemoveTask =>
    match a.get_selected_task_id with
    | some task_id =>
      match a.state with
      | some st =>
        match st.tasks.lookup task_id with
        | some task =>
          if task.status ≠ .Running then
            .ok false { a with confirm_delete := some task_id } []
          else .ok false a []
        | none => .ok false a []
      | none => .ok false a []
    | none => .ok false a []
  | .ConfirmAction =>
    match a.confirm_delete with
    | some task_id =>
      let a0 := { a with confirm_delete := none }
      match c.remove [task_id] with
      | .error e =>
        .ok false { a0 with error_message := some ("Failed to remove task: " ++ e) }
          [.remove [task_id]]
      | .ok _ =>
        let (a2, calls) := a0.refresh c
        .ok false a2 (.remove [task_id] :: calls)
    | none => .ok false a []
  | .CancelConfirm =>
    .ok false { a with confirm_delete := none } []
  | .SubmitInput =>
    match a.input_mode with
    | some mode =>
      let a0 := { a with input_mode := none }
      let command := a0.text_input.value
      if rustTrim command ≠ "" then
        match mode with
        | .AddTask =>
          let group :=
            match a0.selection with
            | .Group name => name
            | .Task g _ => g
          match c.add command group with
          | .ok _ =>
            let (a2, calls) := a0.refresh c
            .ok false { a2 with text_input := a2.text_input.clear }
              (.add command group :: calls)
          | .error e =>
            .ok false
              { a0 with error_message := some ("Failed to add task: " ++ e),
                        text_input := a0.text_input.clear }
              [.add command group]
        | .EditTask editable =>
          let edited := { editable with original_command := command }
          match c.edit_submit edited with
          | .error e =>
            .ok false
              { a0 with error_message := some ("Failed to save edit: " ++ e),
                        text_input := a0.text_input.clear }
              [.edit_submit edited]
          | .ok _ =>
            let (a2, calls) := a0.refresh c
            .ok false { a2 with text_input := a2.text_input.clear }
              (.edit_submit edited :: calls)
      else
        .ok false { a0 with text_input := a0.text_input.clear } []
    | none => .ok false a []
  | .CancelInput =>
    match a.input_mode with
    | some mode =>
      let a0 := { a with input_mode := none }
      match mode with
      | .EditTask editable =>
        .ok false { a0 with text_input := a0.text_input.clear } [.edit_restore editable.id]
      | .AddTask =>
        .ok false { a0 with text_input := a0.text_input.clear } []
    | none => .ok false a []
  | .InputChar ch =>
    match a.text_input.insert ch with
    | some ti => .ok false { a with text_input := ti } []
    | none => .panicked
  | .InputBackspace =>
    match a.text_input.delete_char with
    | some ti => .ok false { a with text_input := ti } []
    | none => .panicked
  | .InputDelete =>
    match a.text_input.delete_forward with
    | some ti => .ok false { a with text_input := ti } []
    | none => .panicked
  | .InputLeft => .ok false { a with text_input := a.text_input.move_left } []
  | .InputRight => .ok false { a with text_input := a.text_input.move_right } []
  | .InputHome => .ok false { a with text_input := a.text_input.move_start } []
  | .InputEnd => .ok false { a with text_input := a.text_input.move_end } []
  | .StashTask =>
    match a.get_selected_task_id with
    | some task_id =>
      match a.state with
      | some st =>
        match st.tasks.lookup task_id with
        | some task =>
          if task.status = .Queued then
            match c.stash [task_id] with
            | .error e =>
              .ok false { a with error_message := some ("Failed to stash task: " ++ e) }
                [.stash [task_id]]
            | .ok _ =>
              let (a2, calls) := a.refresh c
              .ok false a2 (.stash [task_id] :: calls)
          else .ok false a []
        | none => .ok false a []
      | none => .ok false a []
    | none => .ok false a []
  | .EnqueueTask =>
    match a.get_selected_task_id with
    | some task_id =>
      match a.state with
      | some st =>
        match st.tasks.lookup task_id with
        | some task =>
          if task.status = .Stashed then
            match c.enqueue [task_id] with
            | .error e =>
              .ok false { a with error_message := some ("Failed to enqueue task: " ++ e) }
                [.enqueue [task_id]]
            | .ok _ =>
              let (a2, calls) := a.refresh c
              .ok false a2 (.enqueue [task_id] :: calls)
          else .ok false a []
        | none => .ok false a []
      | none => .ok false a []
    | none => .ok false a []
  | .SwitchUp =>
    match a.get_selected_task_id with
    | some task_id =>
      match a.state with
      | some st =>
        let tasks := a.get_task_list
        match tasks.findIdx? (fun p => p.1 == task_id) with
        | some pos =>
          if pos > 0 then
            match tasks[pos - 1]? with
            | some other =>
              match st.tasks.lookup task_id, st.tasks.lookup other.1 with
              | some t1, some t2 =>
                if canSwitch t1.status && canSwitch t2.status then
                  match c.switch task_id other.1 with
                  | .error e =>
                    .ok false
                      { a with error_message := some ("Failed to switch tasks: " ++ e) }
                      [.switch task_id other.1]
                  | .ok _ =>
                    let (a2, calls) := a.refresh c
                    .ok false a2 (.switch task_id other.1 :: calls)
                else .ok false a []
              | _, _ => .ok false a []
            | none => .panicked
          else .ok false a []
        | none => .ok false a []
      | none => .ok false a []
    | none => .ok false a []
  | .SwitchDown =>
    match a.get_selected_task_id with
    | some task_id =>
      match a.state with
      | some st =>
        let tasks := a.get_task_list
        match tasks.findIdx? (fun p => p.1 == task_id) with
        | some pos =>
          if pos < tasks.length - 1 then
            match tasks[pos + 1]? with
            | some other =>
              match st.tasks.lookup task_id, st.tasks.lookup other.1 with
              | some t1, some t2 =>
                if canSwitch t1.status && canSwitch t2.status then
                  match c.switch task_id other.1 with
                  | .error e =>
                    .ok false
                      { a with error_message := some ("Failed to switch tasks: " ++ e) }
                      [.switch task_id other.1]
                  | .ok _ =>
                    let (a2, calls) := a.refresh c
                    .ok false a2 (.switch task_id other.1 :: calls)
                else .ok false a []
              | _, _ => .ok false a []
            | none => .panicked
          else .ok false a []
        | none => .ok false a []
      | none => .ok false a []
    | none => .ok false a []
  | .IncreaseParallel =>
    let group_name :=
      match a.selection with
      | .Group name => name
      | .Task group _ => group
    match a.state with
    | some st =>
      match st.groups.lookup group_name with
      | some group =>
        let new_limit := group.parallel_tasks + 1
        match c.parallel group_name new_limit with
        | .error e =>
          .ok false { a with error_message := some ("Failed to increase parallel: " ++ e) }
            [.parallel group_name new_limit]
        | .ok _ =>
          let (a2, calls) := a.refresh c
          .ok false a2 (.parallel group_name new_limit :: calls)
      | none => .ok false a []
    | none => .ok false a []
  | .DecreaseParallel =>
    let group_name :=
      match a.selection with
      | .Group name => name
      | .Task group _ => group
    match a.state with
    | some st =>
      match st.groups.lookup group_name with
      | some group =>
        if group.parallel_tasks > 1 then
          let new_limit := group.parallel_tasks - 1
          match c.parallel group_name new_limit with
          | .error e =>
            .ok false
              { a with error_message := some ("Failed to decrease parallel: " ++ e) }
              [.parallel group_name new_limit]
          | .ok _ =>
            let (a2, calls) := a.refresh c
            .ok false a2 (.parallel group_name new_limit :: calls)
        else .ok false a []
      | none => .ok false a []
    | none => .ok false a []
  | .CollapseGroup =>
    match a.selection with
    | .Group name =>
      if name ∈ a.collapsed_groups then
        .ok false
          { a with collapsed_groups := a.collapsed_groups.filter (fun g => !(g == name)) } []
      else
        .ok false { a with collapsed_groups := name :: a.collapsed_groups } []
    | .Task group _ =>
      .ok false { a with selection := .Group group } []
  | .ExpandGroup =>
    match a.selection with
    | .Group name =>
      if name ∈ a.collapsed_groups then
        .ok false
          { a with collapsed_groups := a.collapsed_groups.filter (fun g => !(g == name)) } []
      else
        match a.state with
        | some st =>
          match (tasksInGroup st name).head? with
          | some first_task_id =>
            .ok false { a with selection := .Task name first_task_id } []
          | none => .ok false a []
        | none => .ok false a []
    | .Task _ task_id =>
      match c.get_log task_id with
      | .ok content =>
        .ok false
          { a with log_content := some content, log_scroll := 0, show_log_modal := true }
          [.get_log task_id]
      | .error e =>
        .ok false { a with error_message := some ("Failed to get logs: " ++ e) }
          [.get_log task_id]
  | .Quit => .ok true a []

end App

/-- The `crossterm` key codes the event handlers match on (src/events.rs). -/
inductive KeyCode where
  | Char (c : Char)
  | Enter
  | Esc
  | Backspace
  | Delete
  | Left
  | Right
  | Home
  | End
  | Up
  | Down
  | PageUp
  | PageDown
  deriving DecidableEq

/-- A key event; the only modifier the handlers inspect is CONTROL. -/
structure KeyEvent where
  code : KeyCode
  ctrl : Bool
  deriving DecidableEq

/-- Rust `handle_input_mode_key_event` (src/events.rs). -/
def handle_input_mode_key_event (key : KeyEvent) : Option Action :=
  match key.code with
  | .Enter => some .SubmitInput
  | .Esc => some .CancelInput
  | .Backspace => some .InputBackspace
  | .Delete => some .InputDelete
  | .Left => some .InputLeft
  | .Right => some .InputRight
  | .Home => some .InputHome
  | .End => some .InputEnd
  | .Char c =>
    if c = 'a' ∧ key.ctrl then some .InputHome
    else if c = 'e' ∧ key.ctrl then some .InputEnd
    else if c = 'c' ∧ key.ctrl then some .CancelInput
    else some (.InputChar c)
  | _ => none

/-- Rust `handle_log_modal_key_event` (src/events.rs). -/
def handle_log_modal_key_event (key : KeyEvent) : Option Action :=
  match key.code with
  | .Enter => some .CloseLogs
  | .Esc => some .CloseLogs
  | .Down => some .ScrollLogDown
  | .Up => some .ScrollLogUp
  | .PageDown => some .ScrollLogPageDown
  | .PageUp => some .ScrollLogPageUp
  | .Char c =>
    if c = 'q' then some .CloseLogs
    else if c = 'j' then some .ScrollLogDown
    else if c = 'k' then some .ScrollLogUp
    else if c = 'd' ∧ key.ctrl then some .ScrollLogPageDown
    else if c = 'u' ∧ key.ctrl then some .ScrollLogPageUp
    else if c = 'g' then some .ScrollLogUp
    else if c = 'G' then some .ScrollLogDown
    else if c = 'f' then some .FollowLogs
    else none
  | _ => none

/-- Rust `handle_confirm_mode_key_event` (src/events.rs): y/Y/Enter confirm, any
other key cancels. -/
def handle_confirm_mode_key_event (key : KeyEvent) : Option Action :=
  match key.code with
  | .Char c =>
    if c = 'y' ∨ c = 'Y' then some .ConfirmAction
    else some .CancelConfirm
  | .Enter => some .ConfirmAction
  | _ => some .CancelConfirm

/-- Rust `handle_key_event` (src/events.rs): the main (normal-mode) key table. -/
def handle_key_event (key : KeyEvent) : Option Action :=
  if key.code = .Char 'c' ∧ key.ctrl then some .Quit
  else
    match key.code with
    | .Down => some .NavigateDown
    | .Up => some .NavigateUp
    | .Left => some .CollapseGroup
    | .Right => some .ExpandGroup
    | .Enter => some .ExpandGroup
    | .Char c =>
      if c = 'j' then some .NavigateDown
      else if c = 'k' then some .NavigateUp
      else if c = 'g' then some .NavigateTop
      else if c = 'G' then some .NavigateBottom
      else if c = 'K' then some .KillTask
      else if c = 'p' then some .TogglePause
      else if c = ' ' then some .ToggleTaskPause
      else if c = 'r' then some .Refresh
      else if c = 'R' then some .RestartTask
      else if c = 'c' then some .CleanFinished
      else if c = 'a' then some .StartAddTask
      else if c = 'e' then some .StartEditTask
      else if c = 'd' then some .RemoveTask
      else if c = 'x' then some .RemoveTask
      else if c = 's' then some .StashTask
      else if c = 'S' then some .EnqueueTask
      else if c = '<' then some .SwitchUp
      else if c = '>' then some .SwitchDown
      else if c = '+' then some .IncreaseParallel
      else if c = '=' then some .IncreaseParallel
      else if c = '-' then some .DecreaseParallel
      else if c = '_' then some .DecreaseParallel
      else if c = 'h' then some .CollapseGroup
      else if c = 'l' then some .ExpandGroup
      else if c = 'f' then some .FollowLogs
      else if c = 'q' then some .Quit
      else none
    | _ => none

/-- The mode dispatch of `run_app` (src/main.rs): the event handler is chosen
by `input_mode`, then `show_log_modal`, and otherwise the main key table.
(No branch consults `confirm_delete`.) -/
def dispatch_key (a : App) (key : KeyEvent) : Option Action :=
  if a.input_mode.isSome then handle_input_mode_key_event key
  else if a.show_log_modal then handle_log_modal_key_event key
  else handle_key_event key

/-- Outcome of one iteration of the `run_app` loop body for a key event. -/
inductive LoopOutcome where
  | next (a : App)
  | halt (err : Option String)
  deriving DecidableEq

/-- One iteration of the `run_app` event-handling branch (src/main.rs):
interpret the key by mode, run the action; `handle_action(..).await?`
propagates an `Err` out of `run_app` (ending the session), and `Ok(true)`
breaks the loop. -/
def run_app_step (c : ClientBehavior) (a : App) (key : KeyEvent) : LoopOutcome :=
  match dispatch_key a key with
  | none => .next a
  | some action =>
    match a.handle_action c action with
    | .panicked => .halt (some "panicked")
    | .failed e _ _ => .halt (some e)
    | .ok true _ _ => .halt none
    | .ok false a2 _ => .next a2

/-- The daemon-bound `AddRequest` fields relevant to the controller
(pueue_lib `Request::Add`). -/
structure AddRequest where
  command : String
  group : String
  deriving DecidableEq

/-- The daemon-bound `CleanRequest` fields (pueue_lib `Request::Clean`). -/
structure CleanRequest where
  successful_only : Bool
  group : Option String
  deriving DecidableEq

namespace PueueClient

/-- The wire request built by `PueueClient::add` (src/pueue_client.rs):
its only parameter is the command, and the request's `group` field is the
literal `"default"`. -/
def add_request (command : String) : AddRequest :=
  { command := command, group := "default" }

/-- The wire request built by `PueueClient::clean` (src/pueue_client.rs):
its only parameter is `successful_only`, and the request's `group` field is
`None` (clean all groups). -/
def clean_request (successful_only : Bool) : CleanRequest :=
  { successful_only := successful_only, group := none }

end PueueClient

/-! ### Concrete fixtures

A snapshot following the scenario of spec §8: groups `default` and `build`,
task 1 (`echo hi`, default, Queued) and task 2 (`make`, build, Running). -/

/-- Task fixture. -/
def mkTask (command group : String) (status : TaskStatus) : Task :=
  { command := command, path := "/tmp", envs := [], group := group,
    priority := 0, label := none, status := status }

/-- Snapshot fixture from the spec's scenario. -/
def exState : State :=
  { tasks := [(1, mkTask "echo hi" "default" .Queued),
              (2, mkTask "make" "build" .Running)],
    groups := [("build", { status := .Running, parallel_tasks := 1 }),
               ("default", { status := .Running, parallel_tasks := 1 })] }

/-- An oracle for which every call succeeds and `get_state` returns `s`. -/
def clientAllOk (s : State) : ClientBehavior where
  get_state := .ok s
  kill := fun _ => .ok ()
  start_group := fun _ => .ok ()
  pause_group := fun _ => .ok ()
  get_log := fun _ => .ok "log"
  restart := fun _ => .ok ()
  clean := fun _ _ => .ok ()
  add := fun _ _ => .ok 99
  remove := fun _ => .ok ()
  pause_tasks := fun _ => .ok ()
  start_tasks := fun _ => .ok ()
  edit_request := fun id => .ok { id := id, original_command := "old" }
  edit_restore := fun _ => .ok ()
  edit_submit := fun _ => .ok ()
  stash := fun _ => .ok ()
  enqueue := fun _ => .ok ()
  switch := fun _ _ => .ok ()
  parallel := fun _ _ => .ok ()

/-- The app holding the scenario snapshot, nothing collapsed, default group
selected. -/
def exApp : App :=
  { App.default with state := some exState }

section ModelSanity

example :
    exApp.get_tree_items =
      [.Group "default", .Task "default" 1, .Group "build", .Task "build" 2] := by
  decide

example : exApp.get_group_list = ["default", "build"] := by decide

example :
    ({ exApp with collapsed_groups := ["build"] } : App).get_tree_items =
      [.Group "default", .Task "default" 1, .Group "build"] := by
  decide

-- Spec §8 scenario: from Task("build",2), NavigateUp lands on Group("build").
example :
    ({ exApp with selection := .Task "build" 2 } : App).handle_action
        (clientAllOk exState) .NavigateUp =
      .ok false { exApp with selection := .Group "build" } [] := by
  decide

end ModelSanity

/-! ### Claim C3 — error propagation of `handle_action` -/

/-- Oracle whose `kill` fails; everything else succeeds. -/
def clientKillFails : ClientBehavior :=
  { clientAllOk exState with kill := fun _ => .error "boom" }

/-- The scenario app with task 1 selected. -/
def appTaskSel : App := { exApp with selection := .Task "default" 1 }

/-- C3: refuted (code bug).  The KillTask arm of `App::handle_action` uses
`client.kill(..).await?`, so a kill failure is NOT caught locally: it makes
`handle_action` return `Err`, which `run_app` propagates with `?`, terminating
the session — a terminal transition other than Quit, with no error banner
set.  (All other arms catch remote failures into `error_message`; KillTask
and TogglePause are the exceptions.) -/
theorem killTask_failure_terminates_session :
    appTaskSel.handle_action clientKillFails .KillTask =
      .failed "boom" appTaskSel [.kill [1]] ∧
    run_app_step clientKillFails appTaskSel ⟨.Char 'K', false⟩ = .halt (some "boom") := by
  decide

/-! ### Claim C5 — confirmation-mode dispatch -/

/-- The scenario app with task 1 selected and a deletion pending confirmation
(the state `RemoveTask` leaves behind), no input dialog, no log modal. -/
def appConfirmPending : App :=
  { exApp with selection := .Task "default" 1, confirm_delete := some 1 }

/-- C5: refuted (code bug).  The `run_app` mode dispatch (src/main.rs) only
branches on `input_mode` and `show_log_modal`: while a confirmation is
pending, key events are still interpreted by the normal-mode table, never by
`handle_confirm_mode_key_event`.  Pressing `y` yields no action at all (the
confirm interpreter would yield `ConfirmAction`), and Enter yields
`ExpandGroup` instead of `ConfirmAction`, so the pending removal can never be
confirmed. -/
theorem confirm_interpreter_never_dispatched :
    dispatch_key appConfirmPending ⟨.Char 'y', false⟩ = none ∧
    handle_confirm_mode_key_event ⟨.Char 'y', false⟩ = some .ConfirmAction ∧
    dispatch_key appConfirmPending ⟨.Enter, false⟩ = some .ExpandGroup ∧
    handle_confirm_mode_key_event ⟨.Enter, false⟩ = some .ConfirmAction ∧
    dispatch_key appConfirmPending ⟨.Char 'y', false⟩ ≠
      some .ConfirmAction := by
  decide

/-! ### Claim C8 — text-input cursor unit consistency -/

/-- C8: refuted (code bug).  `TextInput::insert` inserts at the byte index
`cursor` but then advances `cursor` by 1 — one code point, not the number of
bytes inserted.  After inserting the two-byte character `é` into an empty
buffer the cursor is 1, which is not a character boundary, so the next insert
calls `String::insert` at a non-boundary index, which panics in Rust
(modelled as `none`). -/
theorem multibyte_insert_panics :
    TextInput.new.insert 'é' = some ⟨"é", 1⟩ ∧
    (TextInput.new.insert 'é').bind (fun t => t.insert 'a') = none := by
  decide

/-! ### Claim C4 — SubmitInput in Add mode -/

/-- The spec-§8 scenario app: TextInput(Add) with buffer "sleep 5" while the
selection's group is "build". -/
def appAddBuild : App :=
  { exApp with selection := .Group "build", input_mode := some .AddTask,
               text_input := ⟨"sleep 5", 7⟩ }

/-- C4: refuted (code bug).  `handle_action` resolves the group from the
selection and passes it to the client (`.add "sleep 5" "build"` appears in
the call trace, followed by the refresh), and SubmitInput does return to
Normal with the buffer cleared; but `PueueClient::add`
(src/pueue_client.rs) takes no group parameter and builds the daemon-bound
`AddRequest` with `group: "default"`, so the task is NOT added to the
selection's group "build" as the claim states. -/
theorem submit_add_wire_group_is_default :
    (appAddBuild.handle_action (clientAllOk exState) .SubmitInput).calls =
      [.add "sleep 5" "build", .get_state] ∧
    PueueClient.add_request "sleep 5" = { command := "sleep 5", group := "default" } ∧
    (PueueClient.add_request "sleep 5").group ≠ "build" ∧
    ((appAddBuild.handle_action (clientAllOk exState) .SubmitInput).appAfter.map
      App.input_mode) = some none ∧
    ((appAddBuild.handle_action (clientAllOk exState) .SubmitInput).appAfter.map
      App.text_input) = some TextInput.new := by
  decide

/-! ### Shared facts about `validate_selection` -/

/-- The projected tree depends only on the snapshot and the collapsed set. -/
theorem get_tree_items_congr (a b : App) (hstate : a.state = b.state)
    (hcol : a.collapsed_groups = b.collapsed_groups) :
    a.get_tree_items = b.get_tree_items := by
  unfold App.get_tree_items App.get_group_list
  rw [hstate, hcol]

/-- Rust `validate_selection` only ever rewrites the selection: snapshot unchanged. -/
theorem validate_selection_state (a : App) :
    a.validate_selection.state = a.state := by
  unfold App.validate_selection
  cases a.get_tree_items with
  | nil => rfl
  | cons first rest => dsimp only; split <;> rfl

/-- Rust `validate_selection` leaves the error banner unchanged. -/
theorem validate_selection_error_message (a : App) :
    a.validate_selection.error_message = a.error_message := by
  unfold App.validate_selection
  cases a.get_tree_items with
  | nil => rfl
  | cons first rest => dsimp only; split <;> rfl

/-- Rust `validate_selection` leaves the collapsed-group set unchanged. -/
theorem validate_selection_collapsed (a : App) :
    a.validate_selection.collapsed_groups = a.collapsed_groups := by
  unfold App.validate_selection
  cases a.get_tree_items with
  | nil => rfl
  | cons first rest => dsimp only; split <;> rfl

/-- Rust `validate_selection` leaves the projected tree unchanged. -/
theorem validate_selection_tree_items (a : App) :
    a.validate_selection.get_tree_items = a.get_tree_items := by
  exact get_tree_items_congr _ _ (validate_selection_state a) (validate_selection_collapsed a)

/-! ### Claim C7 — refresh keeps the stale cache on failure -/

/-- An oracle whose `get_state` fails. -/
def clientConnFails : ClientBehavior :=
  { clientAllOk exState with get_state := .error "boom" }

/-- C7: on a failed refresh the cached snapshot, the selection and the
collapsed-group set are retained unchanged and the error banner is set; on a
successful refresh the snapshot is replaced wholesale by the fetched one, the
banner is cleared, and the selection is reconciled (`validate_selection`). -/
theorem refresh_cache_policy (c : ClientBehavior) (a : App) :
    (∀ e, c.get_state = .error e →
      (a.refresh c).1.state = a.state ∧
      (a.refresh c).1.selection = a.selection ∧
      (a.refresh c).1.collapsed_groups = a.collapsed_groups ∧
      (a.refresh c).1.error_message =
        some ("Failed to connect to pueue daemon: " ++ e)) ∧
    (∀ s, c.get_state = .ok s →
      (a.refresh c).1 =
        App.validate_selection { a with state := some s, error_message := none } ∧
      (a.refresh c).1.state = some s ∧
      (a.refresh c).1.error_message = none) := by
  constructor
  · intro e he
    simp [App.refresh, he]
  · intro s hs
    have h1 : (a.refresh c).1 =
        App.validate_selection { a with state := some s, error_message := none } := by
      simp [App.refresh, hs]
    refine ⟨h1, ?_, ?_⟩
    · rw [h1, validate_selection_state]
    · rw [h1, validate_selection_error_message]

/-- Witness for C7, applying it to the scenario app with a failing and a
succeeding oracle. -/
theorem refresh_cache_policy_witness :
    ((exApp.refresh clientConnFails).1.state = exApp.state ∧
      (exApp.refresh clientConnFails).1.selection = exApp.selection ∧
      (exApp.refresh clientConnFails).1.collapsed_groups = exApp.collapsed_groups ∧
      (exApp.refresh clientConnFails).1.error_message =
        some ("Failed to connect to pueue daemon: " ++ "boom")) ∧
    ((exApp.refresh (clientAllOk exState)).1 =
        App.validate_selection { exApp with state := some exState, error_message := none } ∧
      (exApp.refresh (clientAllOk exState)).1.state = some exState ∧
      (exApp.refresh (clientAllOk exState)).1.error_message = none) :=
  ⟨(refresh_cache_policy clientConnFails exApp).1 "boom" rfl,
   (refresh_cache_policy (clientAllOk exState) exApp).2 exState rfl⟩

/-! ### Claim C9 — local guards refuse silently -/

/-- C9: RemoveTask on a task whose status is Running leaves the app unchanged
(in particular no pending confirmation) and issues no remote call; KillTask on
a group-type selection likewise issues no remote call and changes nothing. -/
theorem guards_refuse_silently (c : ClientBehavior) (a : App) (st : State)
    (g : String) (id : Nat) (task : Task) :
    (a.selection = .Task g id → a.state = some st →
      st.tasks.lookup id = some task → task.status = .Running →
      a.handle_action c .RemoveTask = .ok false a []) ∧
    (a.selection = .Group g → a.handle_action c .KillTask = .ok false a []) := by
  constructor
  · intro h1 h2 h3 h4
    simp [App.handle_action, App.get_selected_task_id, h1, h2, h3, h4]
  · intro h1
    simp [App.handle_action, App.get_selected_task_id, h1]

/-- Witness for C9: in the scenario snapshot, task 2 ("make") is Running, so
RemoveTask with it selected is a no-op; KillTask with the "default" group
selected is a no-op. -/
theorem guards_refuse_silently_witness :
    (({ exApp with selection := .Task "build" 2 } : App).handle_action
        (clientAllOk exState) .RemoveTask =
      .ok false { exApp with selection := .Task "build" 2 } []) ∧
    (exApp.handle_action (clientAllOk exState) .KillTask = .ok false exApp []) :=
  ⟨(guards_refuse_silently (clientAllOk exState)
      { exApp with selection := .Task "build" 2 } exState "build" 2
      (mkTask "make" "build" .Running)).1 rfl rfl (by decide) rfl,
   (guards_refuse_silently (clientAllOk exState) exApp exState "default" 0
      (mkTask "echo hi" "default" .Queued)).2 rfl⟩

/-! ### Claim C10 — CollapseGroup toggles / zooms out -/

/-- C10: on a group-type selection, CollapseGroup toggles that group's
membership in the collapsed set (removing it when it is already collapsed);
on a task-type selection it re-targets the selection to the parent group and
leaves the collapsed set unchanged.  No remote call is made either way. -/
theorem collapse_group_toggles (c : ClientBehavior) (a : App) :
    (∀ name, a.selection = .Group name →
      (name ∈ a.collapsed_groups →
        a.handle_action c .CollapseGroup =
          .ok false
            { a with collapsed_groups :=
                a.collapsed_groups.filter (fun g => !(g == name)) } [] ∧
        name ∉ a.collapsed_groups.filter (fun g => !(g == name))) ∧
      (name ∉ a.collapsed_groups →
        a.handle_action c .CollapseGroup =
          .ok false { a with collapsed_groups := name :: a.collapsed_groups } [] ∧
        name ∈ name :: a.collapsed_groups)) ∧
    (∀ group id, a.selection = .Task group id →
      a.handle_action c .CollapseGroup =
        .ok false { a with selection := .Group group } []) := by
  constructor
  · intro name h1
    constructor
    · intro hmem
      refine ⟨by simp [App.handle_action, h1, hmem], ?_⟩
      simp
    · intro hmem
      refine ⟨by simp [App.handle_action, h1, hmem], ?_⟩
      simp
  · intro group id h1
    simp [App.handle_action, h1]

/-- Witness for C10: with "build" collapsed and selected, CollapseGroup
expands it; with a task selected, CollapseGroup selects the parent group. -/
theorem collapse_group_toggles_witness :
    (({ exApp with selection := .Group "build", collapsed_groups := ["build"] } : App).handle_action
        (clientAllOk exState) .CollapseGroup =
      .ok false { exApp with selection := .Group "build", collapsed_groups := [] } [] ∧
      "build" ∉ (["build"].filter (fun g => !(g == "build")))) ∧
    (({ exApp with selection := .Task "build" 2 } : App).handle_action
        (clientAllOk exState) .CollapseGroup =
      .ok false { exApp with selection := .Group "build" } []) :=
  ⟨((collapse_group_toggles (clientAllOk exState)
      { exApp with selection := .Group "build", collapsed_groups := ["build"] }).1
      "build" rfl).1 (by decide),
   (collapse_group_toggles (clientAllOk exState)
      { exApp with selection := .Task "build" 2 }).2 "build" 2 rfl⟩

/-! ### Claim C6 — CleanFinished scoping -/

/-- Oracle whose `clean` fails; everything else succeeds. -/
def clientCleanFails : ClientBehavior :=
  { clientAllOk exState with clean := fun _ _ => .error "boom" }

/-- The scenario app with the "build" group selected. -/
def appBuildSel : App := { exApp with selection := .Group "build" }

/-- Counterexample to C6 as stated: with the "build" group selected, the
controller passes the resolved group to the client layer, but the
daemon-bound request built by `PueueClient::clean` has `group = None` — it is
scoped to all groups, not to the selection's group; and when the clean call
fails no refresh follows (no `get_state` in the trace), so the clean call is
not "always" followed by a refresh. -/
theorem clean_finished_counterexample :
    (appBuildSel.handle_action clientCleanFails .CleanFinished).calls =
      [.clean false (some "build")] ∧
    (PueueClient.clean_request false).group = none ∧
    (PueueClient.clean_request false).group ≠ some "build" ∧
    ClientCall.get_state ∉
      (appBuildSel.handle_action clientCleanFails .CleanFinished).calls := by
  decide

/-- C6 (amended): CleanFinished resolves the group from the current selection
(the selected group, or the selected task's group) and issues a single clean
call carrying it, but the daemon-bound request covers all groups
(`group = None`, since `PueueClient::clean` takes no group parameter); the
clean call is followed by a refresh exactly when it succeeds, and on failure
the error banner is set instead. -/
theorem clean_finished_behavior (c : ClientBehavior) (a : App) :
    (∀ e, c.clean false (some a.get_selected_group) = .error e →
      a.handle_action c .CleanFinished =
        .ok false { a with error_message := some ("Failed to clean tasks: " ++ e) }
          [.clean false (some a.get_selected_group)]) ∧
    (∀ u, c.clean false (some a.get_selected_group) = .ok u →
      a.handle_action c .CleanFinished =
        .ok false (a.refresh c).1
          (.clean false (some a.get_selected_group) :: (a.refresh c).2)) ∧
    (PueueClient.clean_request false).group = none := by
  refine ⟨?_, ?_, rfl⟩
  · intro e he
    cases h1 : a.selection with
    | Group name =>
      have hg : a.get_selected_group = name := by
        simp [App.get_selected_group, h1]
      rw [hg] at he
      simp [App.handle_action, h1, he, hg]
    | Task group id =>
      have hg : a.get_selected_group = group := by
        simp [App.get_selected_group, h1]
      rw [hg] at he
      simp [App.handle_action, h1, he, hg]
  · intro u hu
    cases h1 : a.selection with
    | Group name =>
      have hg : a.get_selected_group = name := by
        simp [App.get_selected_group, h1]
      rw [hg] at hu
      simp [App.handle_action, h1, hu, hg]
    | Task group id =>
      have hg : a.get_selected_group = group := by
        simp [App.get_selected_group, h1]
      rw [hg] at hu
      simp [App.handle_action, h1, hu, hg]

/-- Witness for C6 (amended), applying it with a failing clean (banner, no
refresh) and a succeeding clean (refresh follows). -/
theorem clean_finished_behavior_witness :
    (appBuildSel.handle_action clientCleanFails .CleanFinished =
      .ok false
        { appBuildSel with error_message := some ("Failed to clean tasks: " ++ "boom") }
        [.clean false (some "build")]) ∧
    (appBuildSel.handle_action (clientAllOk exState) .CleanFinished =
      .ok false (appBuildSel.refresh (clientAllOk exState)).1
        (.clean false (some "build") :: (appBuildSel.refresh (clientAllOk exState)).2)) :=
  ⟨(clean_finished_behavior clientCleanFails appBuildSel).1 "boom" rfl,
   (clean_finished_behavior (clientAllOk exState) appBuildSel).2.1 () rfl⟩

/-! ### Claim C1 — the dangling-selection invariant -/

/-- A tree item always matches the selection designating it. -/
theorem selectionMatches_ofItem (it : TreeItem) :
    App.selectionMatches (App.selectionOfItem it) it = true := by
  cases it <;> simp [App.selectionMatches, App.selectionOfItem]

/-- When the projected tree is empty, `validate_selection` resets the
selection to `Group "default"`. -/
theorem validate_selection_selection_empty (a : App) (h : a.get_tree_items = []) :
    a.validate_selection.selection = .Group "default" := by
  unfold App.validate_selection
  rw [h]

/-- When the selection does not occur in the (non-empty) projected tree,
`validate_selection` resets it to the first item. -/
theorem validate_selection_reset (a : App) (first : TreeItem) (rest : List TreeItem)
    (h : a.get_tree_items = first :: rest)
    (hinvalid : a.get_tree_items.any (App.selectionMatches a.selection) = false) :
    a.validate_selection.selection = App.selectionOfItem first := by
  unfold App.validate_selection
  rw [h] at hinvalid ⊢
  simp [hinvalid]

/-- After `validate_selection`, some item of the (non-empty) projected tree
matches the selection. -/
theorem validate_selection_any (a : App) (h : a.get_tree_items ≠ []) :
    a.get_tree_items.any (App.selectionMatches a.validate_selection.selection) = true := by
  cases hits : a.get_tree_items with
  | nil => exact absurd hits h
  | cons first rest =>
    by_cases hvalid : (first :: rest).any (App.selectionMatches a.selection) = true
    · have hsel : a.validate_selection.selection = a.selection := by
        unfold App.validate_selection
        rw [hits]
        simp [hvalid]
      rw [hsel]
      exact hvalid
    · have hsel : a.validate_selection.selection = App.selectionOfItem first := by
        unfold App.validate_selection
        rw [hits]
        simp [Bool.of_not_eq_true hvalid]
      rw [hsel]
      simp [List.any_cons, selectionMatches_ofItem]

/-- After `validate_selection`, the selection's position in the (non-empty)
projected tree is defined. -/
theorem validate_selection_position_isSome (a : App) (h : a.get_tree_items ≠ []) :
    (a.validate_selection.get_selection_position
      a.validate_selection.get_tree_items).isSome := by
  rw [App.get_selection_position, List.findIdx?_isSome, validate_selection_tree_items]
  exact validate_selection_any a h

/-- C1: after every successful refresh the selection references an item of
the projected tree — `positionOf` is defined whenever the tree is non-empty;
a previous selection that is no longer present is reset to the first item,
and to `Group "default"` when the projected tree is empty. -/
theorem refresh_selection_invariant (c : ClientBehavior) (a : App) (s : State)
    (h : c.get_state = .ok s) :
    ((a.refresh c).1.get_tree_items = [] →
      (a.refresh c).1.selection = .Group "default") ∧
    ((a.refresh c).1.get_tree_items ≠ [] →
      ((a.refresh c).1.get_selection_position ((a.refresh c).1.get_tree_items)).isSome) ∧
    (∀ first rest, (a.refresh c).1.get_tree_items = first :: rest →
      (a.refresh c).1.get_tree_items.any (App.selectionMatches a.selection) = false →
      (a.refresh c).1.selection = App.selectionOfItem first) := by
  have h1 : (a.refresh c).1 =
      App.validate_selection { a with state := some s, error_message := none } := by
    simp [App.refresh, h]
  refine ⟨?_, ?_, ?_⟩
  · intro hempty
    rw [h1] at hempty ⊢
    rw [validate_selection_tree_items] at hempty
    exact validate_selection_selection_empty _ hempty
  · intro hne
    rw [h1] at hne ⊢
    rw [validate_selection_tree_items] at hne
    exact validate_selection_position_isSome _ hne
  · intro first rest hcons hinvalid
    rw [h1] at hcons hinvalid ⊢
    rw [validate_selection_tree_items] at hcons hinvalid
    exact validate_selection_reset _ first rest hcons hinvalid

/-- An app whose selection references a task id that no longer exists. -/
def appStale : App := { exApp with selection := .Task "default" 42 }

/-- Witness for C1: refreshing the stale app against the scenario snapshot
re-establishes a defined position, resetting the dangling selection to the
first item of the projected tree. -/
theorem refresh_selection_invariant_witness :
    ((appStale.refresh (clientAllOk exState)).1.get_selection_position
        ((appStale.refresh (clientAllOk exState)).1.get_tree_items)).isSome ∧
    (appStale.refresh (clientAllOk exState)).1.selection =
      App.selectionOfItem (.Group "default") :=
  ⟨(refresh_selection_invariant (clientAllOk exState) appStale exState rfl).2.1
      (by decide),
   (refresh_selection_invariant (clientAllOk exState) appStale exState rfl).2.2
      (.Group "default") [.Task "default" 1, .Group "build", .Task "build" 2]
      (by decide) (by decide)⟩

/-! ### Claim C2 — tree projector ordering -/

/-- The group names of the header rows of a projected tree, in order. -/
def headerNames (items : List TreeItem) : List String :=
  items.filterMap fun it =>
    match it with
    | .Group n => some n
    | .Task _ _ => none

/-- The ids of the task rows labeled with group `g`, in order. -/
def taskIdsOf (g : String) (items : List TreeItem) : List Nat :=
  items.filterMap fun it =>
    match it with
    | .Task g2 id => if g2 == g then some id else none
    | .Group _ => none

theorem filterMap_flatMap {α β γ : Type} (l : List α) (f : α → List β) (p : β → Option γ) :
    (l.flatMap f).filterMap p = l.flatMap (fun x => (f x).filterMap p) := by
  induction l with
  | nil => rfl
  | cons x xs ih => simp [List.flatMap_cons, List.filterMap_append, ih]

theorem filterMap_map_none {α β γ : Type} (l : List α) (g : α → β) (f : β → Option γ)
    (h : ∀ x, f (g x) = none) : (l.map g).filterMap f = [] := by
  induction l with
  | nil => rfl
  | cons x xs ih => simp [h, ih]

theorem filterMap_map_id {α β : Type} (l : List α) (g : α → β) (f : β → Option α)
    (h : ∀ x, f (g x) = some x) : (l.map g).filterMap f = l := by
  induction l with
  | nil => rfl
  | cons x xs ih => simp [h, ih]

theorem flatMap_eq_nil_of_forall {α β : Type} {l : List α} {f : α → List β}
    (h : ∀ x ∈ l, f x = []) : l.flatMap f = [] := by
  induction l with
  | nil => rfl
  | cons x xs ih =>
    simp only [List.flatMap_cons, h x (List.mem_cons_self x xs), List.nil_append]
    exact ih fun y hy => h y (List.mem_cons_of_mem x hy)

/-- When at most the element `g` contributes a non-empty list, `flatMap`
collapses to that single contribution. -/
theorem flatMap_eq_of_unique {α β : Type} [DecidableEq α] {l : List α} (hl : l.Nodup)
    (f : α → List β) (g : α) (hf : ∀ x ∈ l, x ≠ g → f x = []) :
    l.flatMap f = if g ∈ l then f g else [] := by
  induction l with
  | nil => rfl
  | cons x xs ih =>
    rw [List.flatMap_cons]
    have hx := List.nodup_cons.mp hl
    by_cases he : x = g
    · subst he
      have hall : xs.flatMap f = [] :=
        flatMap_eq_nil_of_forall fun y hy =>
          hf y (List.mem_cons_of_mem x hy) (fun hyg => hx.1 (hyg ▸ hy))
      rw [hall, List.append_nil, if_pos (List.mem_cons_self x xs)]
    · rw [hf x (List.mem_cons_self x xs) he, List.nil_append,
        ih hx.2 (fun y hy hne => hf y (List.mem_cons_of_mem x hy) hne)]
      by_cases hg : g ∈ xs
      · rw [if_pos hg, if_pos (List.mem_cons_of_mem x hg)]
      · rw [if_neg hg, if_neg (by
          intro hmem
          rcases List.mem_cons.mp hmem with h1 | h1
          · exact he h1.symm
          · exact hg h1)]

theorem headerNames_append (l1 l2 : List TreeItem) :
    headerNames (l1 ++ l2) = headerNames l1 ++ headerNames l2 := by
  unfold headerNames
  exact List.filterMap_append l1 l2 _

theorem headerNames_treeBlock (col : List String) (s : State) (g : String) :
    headerNames (App.treeBlock col s g) = [g] := by
  unfold App.treeBlock headerNames
  split
  · rfl
  · rw [List.filterMap_cons]
    simp only
    rw [filterMap_map_none _ _ _ (fun id => rfl)]

theorem headerNames_flatMap (col : List String) (s : State) (l : List String) :
    headerNames (l.flatMap (App.treeBlock col s)) = l := by
  induction l with
  | nil => rfl
  | cons x xs ih =>
    rw [List.flatMap_cons, headerNames_append, headerNames_treeBlock, ih]
    rfl

theorem taskIdsOf_flatMap (g : String) (f : String → List TreeItem) (l : List String) :
    taskIdsOf g (l.flatMap f) = l.flatMap (fun x => taskIdsOf g (f x)) := by
  unfold taskIdsOf
  exact filterMap_flatMap l f _

theorem taskIdsOf_treeBlock (col : List String) (s : State) (g g2 : String) :
    taskIdsOf g (App.treeBlock col s g2) =
      if g2 = g ∧ g2 ∉ col then App.tasksInGroup s g2 else [] := by
  unfold App.treeBlock taskIdsOf
  by_cases hc : g2 ∈ col
  · simp [hc]
  · by_cases he : g2 = g
    · subst he
      rw [if_neg hc, if_pos (show g2 = g2 ∧ g2 ∉ col from ⟨rfl, hc⟩),
        List.filterMap_cons]
      simp only
      exact filterMap_map_id _ _ _ (fun id => by simp)
    · rw [if_neg hc,
        if_neg (show ¬(g2 = g ∧ g2 ∉ col) from fun hand => he hand.1),
        List.filterMap_cons]
      simp only
      exact filterMap_map_none _ _ _ (fun id => by simp [he])

/-- The sorted task-id list of a group is strictly increasing when the
snapshot's task keys are duplicate-free. -/
theorem tasksInGroup_sorted_lt (s : State) (ht : (s.tasks.map Prod.fst).Nodup)
    (g : String) : List.Sorted (· < ·) (App.tasksInGroup s g) := by
  have hsorted : List.Sorted (· ≤ ·) (App.tasksInGroup s g) :=
    List.sorted_insertionSort _ _
  have hnd : (App.tasksInGroup s g).Nodup := by
    have hperm := List.perm_insertionSort (· ≤ ·)
      ((s.tasks.filter (fun p => p.2.group == g)).map Prod.fst)
    have hsub : List.Sublist ((s.tasks.filter (fun p => p.2.group == g)).map Prod.fst)
        (s.tasks.map Prod.fst) := (List.filter_sublist _).map Prod.fst
    exact hperm.nodup_iff.mpr (ht.sublist hsub)
  exact hsorted.lt_of_le hnd

/-- C2: for every snapshot (with duplicate-free map keys) and collapse set,
the projector emits the "default" group header first when that group exists,
all group headers in the `get_group_list` order whose non-default part is
lexicographically sorted, the task rows of each group in strictly increasing
id order, and no task row at all for a collapsed group. -/
theorem tree_projector_ordering (a : App) (s : State)
    (hs : a.state = some s)
    (hg : (s.groups.map Prod.fst).Nodup)
    (ht : (s.tasks.map Prod.fst).Nodup) :
    ("default" ∈ s.groups.map Prod.fst →
      a.get_tree_items.head? = some (.Group "default")) ∧
    headerNames a.get_tree_items = a.get_group_list ∧
    List.Sorted strLe
      ((headerNames a.get_tree_items).filter (fun g => !(g == "default"))) ∧
    (∀ g, List.Sorted (· < ·) (taskIdsOf g a.get_tree_items)) ∧
    (∀ g ∈ a.collapsed_groups, ∀ id, TreeItem.Task g id ∉ a.get_tree_items) := by
  have hperm : List.Perm (List.insertionSort strLe (s.groups.map Prod.fst))
      (s.groups.map Prod.fst) := List.perm_insertionSort _ _
  have hsorted : List.Sorted strLe (List.insertionSort strLe (s.groups.map Prod.fst)) :=
    List.sorted_insertionSort _ _
  have hnodup : (List.insertionSort strLe (s.groups.map Prod.fst)).Nodup :=
    hperm.nodup_iff.mpr hg
  have hgl : a.get_group_list =
      if (List.insertionSort strLe (s.groups.map Prod.fst)).contains "default" then
        "default" :: (List.insertionSort strLe (s.groups.map Prod.fst)).erase "default"
      else List.insertionSort strLe (s.groups.map Prod.fst) := by
    unfold App.get_group_list
    rw [hs]
  have hitems : a.get_tree_items =
      (a.get_group_list).flatMap (App.treeBlock a.collapsed_groups s) := by
    unfold App.get_tree_items
    rw [hs]
  have hglnodup : (a.get_group_list).Nodup := by
    rw [hgl]
    split
    · exact List.nodup_cons.mpr
        ⟨hnodup.not_mem_erase, hnodup.sublist (List.erase_sublist _ _)⟩
    · exact hnodup
  refine ⟨?_, ?_, ?_, ?_, ?_⟩
  · intro hd
    have hmem : "default" ∈ List.insertionSort strLe (s.groups.map Prod.fst) :=
      hperm.mem_iff.mpr hd
    have hcont : (List.insertionSort strLe (s.groups.map Prod.fst)).contains "default"
        = true := by simpa using hmem
    rw [hitems, hgl, if_pos hcont, List.flatMap_cons]
    rfl
  · rw [hitems]
    exact headerNames_flatMap _ _ _
  · rw [hitems, headerNames_flatMap, hgl]
    split
    · rw [List.filter_cons]
      simp only [beq_self_eq_true, Bool.not_true, Bool.false_eq_true, if_false]
      exact (hsorted.sublist (List.erase_sublist _ _)).filter _
    · exact hsorted.filter _
  · intro g
    rw [hitems, taskIdsOf_flatMap,
      flatMap_eq_of_unique hglnodup _ g
        (fun x _ hne => by rw [taskIdsOf_treeBlock, if_neg (fun hand => hne hand.1)])]
    split
    · rw [taskIdsOf_treeBlock]
      split
      · exact tasksInGroup_sorted_lt s ht g
      · exact List.sorted_nil
    · exact List.sorted_nil
  · intro g hgcol id hmem
    rw [hitems] at hmem
    rcases List.mem_flatMap.mp hmem with ⟨g2, _, hin⟩
    unfold App.treeBlock at hin
    rcases List.mem_cons.mp hin with heq | htail
    · exact TreeItem.noConfusion heq
    · by_cases hc : g2 ∈ a.collapsed_groups
      · rw [if_pos hc] at htail
        exact absurd htail (List.not_mem_nil _)
      · rw [if_neg hc] at htail
        rcases List.mem_map.mp htail with ⟨id2, _, heq2⟩
        injection heq2 with h1 h2
        exact hc (h1 ▸ hgcol)

/-- Witness for C2, at the scenario snapshot with the "other" group collapsed
in addition. -/
theorem tree_projector_ordering_witness :
    (("default" ∈ exState.groups.map Prod.fst →
      exApp.get_tree_items.head? = some (.Group "default")) ∧
    headerNames exApp.get_tree_items = exApp.get_group_list ∧
    List.Sorted strLe
      ((headerNames exApp.get_tree_items).filter (fun g => !(g == "default"))) ∧
    (∀ g, List.Sorted (· < ·) (taskIdsOf g exApp.get_tree_items)) ∧
    (∀ g ∈ exApp.collapsed_groups, ∀ id, TreeItem.Task g id ∉ exApp.get_tree_items)) :=
  tree_projector_ordering exApp exState rfl (by decide) (by decide)

end LazyPueue
